import Mathlib

/-!
Shallow embedding of the Vulkan device-and-pipeline bootstrap sequence of
this repository (HelloTriangleApplication).  Pure decision logic
(device selection, queue-family resolution, surface-configuration
negotiation) is translated into executable Lean functions; the stateful
create/destroy lifecycle is translated into explicit event traces.
Machine integers (uint32_t) are modelled as Nat with explicit reduction
modulo 2^32 where overflow can occur.
-/

/-- uint32_t arithmetic modulus. -/
def U32MOD : Nat := 4294967296

/-- UINT32_MAX, the value compared against currentExtent.width in
chooseSwapExtent (the "match window" sentinel marker). -/
def UINT32_MAX : Nat := 4294967295

/-- VK_FORMAT_B8G8R8A8_SRGB (Vulkan enum value 50). -/
def VK_FORMAT_B8G8R8A8_SRGB : Nat := 50

/-- VK_COLOR_SPACE_SRGB_NONLINEAR_KHR (Vulkan enum value 0). -/
def VK_COLOR_SPACE_SRGB_NONLINEAR_KHR : Nat := 0

/-- VK_PRESENT_MODE_MAILBOX_KHR (Vulkan enum value 1). -/
def VK_PRESENT_MODE_MAILBOX_KHR : Nat := 1

/-- VK_PRESENT_MODE_FIFO_KHR (Vulkan enum value 2). -/
def VK_PRESENT_MODE_FIFO_KHR : Nat := 2

/-- VkExtent2D: a width/height pair of uint32_t. -/
structure VkExtent2D where
  width : Nat
  height : Nat
deriving DecidableEq, Repr

/-- VkSurfaceFormatKHR: pixel format plus color space. -/
structure VkSurfaceFormatKHR where
  format : Nat
  colorSpace : Nat
deriving DecidableEq, Repr

/-- The fields of VkSurfaceCapabilitiesKHR the bootstrap reads. -/
structure VkSurfaceCapabilitiesKHR where
  minImageCount : Nat
  maxImageCount : Nat
  currentExtent : VkExtent2D
  minImageExtent : VkExtent2D
  maxImageExtent : VkExtent2D
  currentTransform : Nat
deriving DecidableEq, Repr

/-- One queue family as observed by findQueueFamilies: whether its
queueFlags contain VK_QUEUE_GRAPHICS_BIT, and the per-index result of
vkGetPhysicalDeviceSurfaceSupportKHR against the surface. -/
structure QueueFamily where
  queueFlagsGraphics : Bool
  presentSupport : Bool
deriving DecidableEq, Repr

/-- struct QueueFamilyIndices of the source: two optional uint32_t. -/
structure QueueFamilyIndices where
  graphicsFamily : Option Nat
  presentFamily : Option Nat
deriving DecidableEq, Repr

/-- QueueFamilyIndices.isComplete of the source:
graphicsFamily.has_value() && presentFamily.has_value(). -/
def QueueFamilyIndices.isComplete (q : QueueFamilyIndices) : Bool :=
  q.graphicsFamily.isSome && q.presentFamily.isSome

/-- A physical device together with everything the selection pass queries
about it: its queue-family properties (with per-index present support),
its enumerated device extensions, and the surface formats and present
modes reported for the presentation surface. -/
structure PhysicalDevice where
  queueFamilies : List QueueFamily
  availableExtensions : List String
  capabilities : VkSurfaceCapabilitiesKHR
  formats : List VkSurfaceFormatKHR
  presentModes : List Nat
deriving DecidableEq, Repr

/-- struct SwapChainSupportDetails of the source. -/
structure SwapChainSupportDetails where
  capabilities : VkSurfaceCapabilitiesKHR
  formats : List VkSurfaceFormatKHR
  presentModes : List Nat
deriving DecidableEq, Repr

/-- The global deviceExtensions list of the source:
just VK_KHR_SWAPCHAIN_EXTENSION_NAME. -/
def deviceExtensions : List String := [ "VK_KHR_swapchain" ]

/-- querySwapChainSupport: reads capabilities, formats and present modes
of the device/surface pair (pure probing, modelled as field reads). -/
def querySwapChainSupport (d : PhysicalDevice) : SwapChainSupportDetails :=
  { capabilities := d.capabilities
    formats := d.formats
    presentModes := d.presentModes }

/-- checkDeviceExtensionSupport: builds the set of required extensions,
erases every available extension name from it, and reports whether the
set ended up empty. -/
def checkDeviceExtensionSupport (d : PhysicalDevice) : Bool :=
  (d.availableExtensions.foldl
    (fun requiredExtensions ext => requiredExtensions.filter (fun r => r != ext))
    deviceExtensions).isEmpty

/-- The loop of findQueueFamilies: walks the queue families with index i,
assigns i to the graphics role whenever the family has the graphics bit
and to the present role whenever it has present support (each assignment
overwrites any earlier one), and breaks as soon as both roles are
assigned.  The two sequential member assignments of the source body are
rendered as one record whose fields carry the respective conditionals;
this is equivalent because the first assignment does not touch
presentFamily and the second does not touch graphicsFamily. -/
def findQueueFamiliesLoop (ind : QueueFamilyIndices) (i : Nat) :
    List QueueFamily → QueueFamilyIndices
  | [] => ind
  | qf :: rest =>
    let ind2 : QueueFamilyIndices :=
      { graphicsFamily := if qf.queueFlagsGraphics then some i else ind.graphicsFamily
        presentFamily := if qf.presentSupport then some i else ind.presentFamily }
    if ind2.isComplete then ind2 else findQueueFamiliesLoop ind2 (i + 1) rest

/-- findQueueFamilies of the source, starting from empty optionals and
index 0. -/
def findQueueFamilies (fams : List QueueFamily) : QueueFamilyIndices :=
  findQueueFamiliesLoop { graphicsFamily := none, presentFamily := none } 0 fams

/-- isDeviceSuitable: queue indices complete, extensions supported, and
(only queried when extensions are supported) non-empty format and
present-mode lists. -/
def isDeviceSuitable (d : PhysicalDevice) : Bool :=
  let indices := findQueueFamilies d.queueFamilies
  let extensionsSupported := checkDeviceExtensionSupport d
  let swapChainAdequate :=
    if extensionsSupported then
      let swapChainSupport := querySwapChainSupport d
      !swapChainSupport.formats.isEmpty && !swapChainSupport.presentModes.isEmpty
    else false
  indices.isComplete && extensionsSupported && swapChainAdequate

/-- The two fatal errors of pickPhysicalDevice. -/
inductive PickError where
  /-- thrown when vkEnumeratePhysicalDevices reports zero devices:
  "failed to find GPUs with Vulkan support" (no compatible hardware). -/
  | noCompatibleHardware
  /-- thrown when the scan leaves physicalDevice == VK_NULL_HANDLE:
  "failed to find a suitable GPU!" (no suitable device). -/
  | noSuitableDevice
deriving DecidableEq, Repr

/-- pickPhysicalDevice: throws on an empty enumeration, otherwise takes
the first device for which isDeviceSuitable holds and breaks; if none is
suitable the handle stays VK_NULL_HANDLE and the second error is thrown.
Exceptions terminate the bootstrap (no retry), modelled by Except. -/
def pickPhysicalDevice (devices : List PhysicalDevice) :
    Except PickError PhysicalDevice :=
  if devices.isEmpty then
    .error .noCompatibleHardware
  else
    match devices.find? (fun d => isDeviceSuitable d) with
    | some d => .ok d
    | none => .error .noSuitableDevice

/-- The preferred surface format of chooseSwapSurfaceFormat:
VK_FORMAT_B8G8R8A8_SRGB with VK_COLOR_SPACE_SRGB_NONLINEAR_KHR. -/
def preferredSurfaceFormat : VkSurfaceFormatKHR :=
  { format := VK_FORMAT_B8G8R8A8_SRGB
    colorSpace := VK_COLOR_SPACE_SRGB_NONLINEAR_KHR }

/-- chooseSwapSurfaceFormat: scan for the preferred (B8G8R8A8_SRGB,
SRGB_NONLINEAR) pair and return the first match; otherwise fall back to
availableFormats[0].  The fallback subscript has no valid element on an
empty vector (undefined behavior in the source), so the total embedding
returns an Option, with none exactly on the empty-list fallback. -/
def chooseSwapSurfaceFormat (availableFormats : List VkSurfaceFormatKHR) :
    Option VkSurfaceFormatKHR :=
  match availableFormats.find? (fun f =>
      f.format == VK_FORMAT_B8G8R8A8_SRGB &&
      f.colorSpace == VK_COLOR_SPACE_SRGB_NONLINEAR_KHR) with
  | some f => some f
  | none => availableFormats.head?

/-- chooseSwapPresentMode: scan for VK_PRESENT_MODE_MAILBOX_KHR and
return it if found, else VK_PRESENT_MODE_FIFO_KHR. -/
def chooseSwapPresentMode : List Nat → Nat
  | [] => VK_PRESENT_MODE_FIFO_KHR
  | m :: rest =>
    if m = VK_PRESENT_MODE_MAILBOX_KHR then m else chooseSwapPresentMode rest

/-- std::clamp(v, lo, hi): lo if v < lo, hi if v > hi, else v. -/
def stdClamp (v lo hi : Nat) : Nat :=
  if v < lo then lo else if hi < v then hi else v

/-- chooseSwapExtent: if currentExtent.width is not the UINT32_MAX
sentinel, return currentExtent verbatim; otherwise take the live
framebuffer size reported by glfwGetFramebufferSize (cast from int to
uint32_t, hence reduced mod 2^32) and clamp each component into
[minImageExtent, maxImageExtent]. -/
def chooseSwapExtent (capabilities : VkSurfaceCapabilitiesKHR)
    (framebufferWidth framebufferHeight : Nat) : VkExtent2D :=
  if capabilities.currentExtent.width ≠ UINT32_MAX then
    capabilities.currentExtent
  else
    let actualWidth := framebufferWidth % U32MOD
    let actualHeight := framebufferHeight % U32MOD
    { width := stdClamp actualWidth capabilities.minImageExtent.width
        capabilities.maxImageExtent.width
      height := stdClamp actualHeight capabilities.minImageExtent.height
        capabilities.maxImageExtent.height }

/-- The image-count computation of createSwapChain: request one image
more than the minimum (uint32_t addition, hence mod 2^32), then cap at
maxImageCount unless maxImageCount is 0 (unbounded). -/
def createSwapChainImageCount (capabilities : VkSurfaceCapabilitiesKHR) : Nat :=
  let imageCount := (capabilities.minImageCount + 1) % U32MOD
  if capabilities.maxImageCount > 0 ∧ imageCount > capabilities.maxImageCount then
    capabilities.maxImageCount
  else
    imageCount

/-- VkSharingMode values used by createSwapChain. -/
inductive VkSharingMode where
  | exclusive
  | concurrent
deriving DecidableEq, Repr

/-- The sharing-mode fields of VkSwapchainCreateInfoKHR that
createSwapChain fills in. -/
structure SwapChainSharingInfo where
  imageSharingMode : VkSharingMode
  queueFamilyIndexCount : Nat
  pQueueFamilyIndices : List Nat
deriving DecidableEq, Repr

/-- The sharing-mode decision of createSwapChain: the local array
queueFamilyIndices = { graphicsFamily.value(), presentFamily.value() }
(value() is only invoked on a device that passed selection, hence on
complete indices; getD 0 models that partial read), then concurrent
sharing across both indices when the two optionals differ, else
exclusive sharing with no index list. -/
def createSwapChainSharing (indices : QueueFamilyIndices) : SwapChainSharingInfo :=
  let queueFamilyIndices : List Nat :=
    [indices.graphicsFamily.getD 0, indices.presentFamily.getD 0]
  if indices.graphicsFamily ≠ indices.presentFamily then
    { imageSharingMode := .concurrent
      queueFamilyIndexCount := 2
      pQueueFamilyIndices := queueFamilyIndices }
  else
    { imageSharingMode := .exclusive
      queueFamilyIndexCount := 0
      pQueueFamilyIndices := [] }

/-- The application-owned handles of HelloTriangleApplication that have
explicit destroy calls in cleanup().  The physical device is a borrowed
reference (released implicitly with the instance), the swap-chain images
are destroyed implicitly with the swap chain, and the single command
buffer is freed implicitly with its command pool, so none of those three
appear here.  The per-image view and framebuffer vectors are modelled as
one aggregate resource each, matching the per-stage state machine
(created by one stage, destroyed by one cleanup loop). -/
inductive Res where
  | window
  | vkInstance
  | debugMessenger
  | surface
  | device
  | swapChain
  | imageViews
  | renderPass
  | pipelineLayout
  | graphicsPipeline
  | framebuffers
  | commandPool
deriving DecidableEq, Repr

/-- A create or destroy call on an owned handle. -/
inductive BootEv where
  | create (r : Res)
  | destroy (r : Res)
deriving DecidableEq, Repr

/-- Whether an event is a destroy call. -/
def BootEv.isDestroy : BootEv → Bool
  | .destroy _ => true
  | _ => false

/-- Whether an event is a create call. -/
def BootEv.isCreate : BootEv → Bool
  | .create _ => true
  | _ => false

/-- The creation order of run()/initVulkan(): initWindow, createInstance,
setupDebugMessenger (only when validation layers are enabled),
createSurface, pickPhysicalDevice (no owned handle), createLogicalDevice,
createSwapChain, createImageViews, createRenderPass,
createGraphicsPipeline (pipeline layout first, then the pipeline),
createFrameBuffers, createCommandPool, createCommandBuffer (no owned
handle: freed with the pool). -/
def createList (validation : Bool) : List Res :=
  [.window, .vkInstance] ++
  (if validation then [.debugMessenger] else []) ++
  [.surface, .device, .swapChain, .imageViews, .renderPass,
   .pipelineLayout, .graphicsPipeline, .framebuffers, .commandPool]

/-- The destroy order of cleanup(): command pool, framebuffers, pipeline,
pipeline layout, render pass, image views, swap chain, logical device,
debug messenger (only when validation layers are enabled), surface,
instance, window (glfwDestroyWindow, then glfwTerminate). -/
def destroyList (validation : Bool) : List Res :=
  [.commandPool, .framebuffers, .graphicsPipeline, .pipelineLayout,
   .renderPass, .imageViews, .swapChain, .device] ++
  (if validation then [.debugMessenger] else []) ++
  [.surface, .vkInstance, .window]

/-- One run of the process, as the trace of create and destroy calls on
owned handles.  failAt = none is a run in which every creation call
succeeds: run() executes initWindow, initVulkan, mainLoop and then
cleanup().  failAt = some k is a run in which the creation of the k-th
handle (0-based position in createList) throws: the exception propagates
out of run() into the catch block of main(), which prints the message
and returns EXIT_FAILURE without invoking cleanup(), so the trace ends
after the k handles already created, with no destroy calls at all. -/
def bootRun (validation : Bool) (failAt : Option Nat) : List BootEv :=
  match failAt with
  | none =>
    (createList validation).map BootEv.create ++
    (destroyList validation).map BootEv.destroy
  | some k =>
    ((createList validation).take k).map BootEv.create

/-- The create/destroy events on the two transient shader modules and
the fatal calls inside createGraphicsPipeline. -/
inductive PipelineEv where
  | createVertShaderModule
  | createFragShaderModule
  | createPipelineLayout
  | createPipeline
  | destroyFragShaderModule
  | destroyVertShaderModule
  | throwFailure
deriving DecidableEq, Repr

/-- The event trace of one execution of createGraphicsPipeline,
parameterized by whether each fallible creation call succeeds, in source
order: createShaderModule(vertShaderCode) (throws on failure),
createShaderModule(fragShaderCode) (throws on failure),
vkCreatePipelineLayout (throws on failure),
vkCreateGraphicsPipelines (throws on failure), and only after a
successful pipeline creation the two vkDestroyShaderModule calls
(fragment first, then vertex).  A throw propagates immediately: no code
after it in the function body runs. -/
def createGraphicsPipeline (vertOk fragOk layoutOk pipelineOk : Bool) :
    List PipelineEv :=
  if !vertOk then [.throwFailure]
  else .createVertShaderModule ::
    (if !fragOk then [.throwFailure]
     else .createFragShaderModule ::
       (if !layoutOk then [.throwFailure]
        else .createPipelineLayout ::
          (if !pipelineOk then [.throwFailure]
           else [.createPipeline, .destroyFragShaderModule,
                 .destroyVertShaderModule])))

/-- Example capability set with minImageCount 2 and unbounded (0)
maxImageCount. -/
def capsMin2Unbounded : VkSurfaceCapabilitiesKHR :=
  { minImageCount := 2
    maxImageCount := 0
    currentExtent := { width := 800, height := 600 }
    minImageExtent := { width := 1, height := 1 }
    maxImageExtent := { width := 4096, height := 4096 }
    currentTransform := 0 }

/-- Example capability set with minImageCount 3 and maxImageCount 3. -/
def capsMin3Max3 : VkSurfaceCapabilitiesKHR :=
  { minImageCount := 3
    maxImageCount := 3
    currentExtent := { width := 800, height := 600 }
    minImageExtent := { width := 1, height := 1 }
    maxImageExtent := { width := 4096, height := 4096 }
    currentTransform := 0 }

/-- Example capability set whose currentExtent carries the match-window
sentinel and whose extent bounds are (1,1) to (1024,1024). -/
def capsSentinelClamp : VkSurfaceCapabilitiesKHR :=
  { minImageCount := 2
    maxImageCount := 0
    currentExtent := { width := UINT32_MAX, height := UINT32_MAX }
    minImageExtent := { width := 1, height := 1 }
    maxImageExtent := { width := 1024, height := 1024 }
    currentTransform := 0 }

/-- Example device that passes every suitability check: one queue family
with both the graphics bit and present support, the swapchain extension
available, and non-empty format and present-mode lists. -/
def suitableDevice : PhysicalDevice :=
  { queueFamilies := [{ queueFlagsGraphics := true, presentSupport := true }]
    availableExtensions := [ "VK_KHR_swapchain" ]
    capabilities := capsMin2Unbounded
    formats := [preferredSurfaceFormat]
    presentModes := [VK_PRESENT_MODE_FIFO_KHR] }

/-- Example device rejected by the extension check: it enumerates no
device extensions, so the required swapchain extension is missing. -/
def unsuitableDevice : PhysicalDevice :=
  { queueFamilies := [{ queueFlagsGraphics := true, presentSupport := true }]
    availableExtensions := []
    capabilities := capsMin2Unbounded
    formats := [preferredSurfaceFormat]
    presentModes := [VK_PRESENT_MODE_FIFO_KHR] }

/-- Queue-family list in which the first two families are graphics-only
and the third is present-only: the scan overwrites the graphics role at
index 1 before present support is found at index 2. -/
def famsGraphicsTwice : List QueueFamily :=
  [{ queueFlagsGraphics := true, presentSupport := false },
   { queueFlagsGraphics := true, presentSupport := false },
   { queueFlagsGraphics := false, presentSupport := true }]

/-- Queue-family list with a graphics-only family at index 0, a
present-only family at index 1, and a family satisfying both predicates
at index 2: the scan stops at index 1 with two distinct roles and never
reaches the combined family. -/
def famsSplitThenCombined : List QueueFamily :=
  [{ queueFlagsGraphics := true, presentSupport := false },
   { queueFlagsGraphics := false, presentSupport := true },
   { queueFlagsGraphics := true, presentSupport := true }]

/-- A surface format different from the preferred pair. -/
def otherSurfaceFormat : VkSurfaceFormatKHR :=
  { format := 44, colorSpace := 0 }

/-- std::clamp into a well-formed range [lo, hi] is the composition of
the two bounds. -/
theorem stdClamp_eq_max_min (v lo hi : Nat) (h : lo ≤ hi) :
    stdClamp v lo hi = max lo (min v hi) := by
  unfold stdClamp
  rw [max_def, min_def]
  split_ifs <;> omega

/-- C5: for every capability set (whose uint32 minImageCount does not
overflow when incremented), the requested swap-chain image count equals
min(minImageCount + 1, maxImageCount) when maxImageCount > 0, and equals
minImageCount + 1 when maxImageCount = 0 (unbounded); in particular
minImageCount=2 with maxImageCount=0 yields 3, and minImageCount=3 with
maxImageCount=3 yields 3. -/
theorem createSwapChainImageCount_spec :
    (∀ caps : VkSurfaceCapabilitiesKHR, caps.minImageCount + 1 < U32MOD →
      (caps.maxImageCount > 0 →
        createSwapChainImageCount caps =
          min (caps.minImageCount + 1) caps.maxImageCount) ∧
      (caps.maxImageCount = 0 →
        createSwapChainImageCount caps = caps.minImageCount + 1)) ∧
    createSwapChainImageCount capsMin2Unbounded = 3 ∧
    createSwapChainImageCount capsMin3Max3 = 3 := by
  refine ⟨fun caps h => ⟨fun hmax => ?_, fun hmax => ?_⟩, by decide, by decide⟩
  · simp only [createSwapChainImageCount]
    rw [Nat.mod_eq_of_lt h, min_def]
    split_ifs <;> omega
  · simp only [createSwapChainImageCount]
    rw [Nat.mod_eq_of_lt h]
    rw [if_neg (by omega)]

/-- Witness for C5: the universal part evaluated at the two concrete
capability sets named in the claim. -/
theorem createSwapChainImageCount_spec_witness :
    createSwapChainImageCount capsMin3Max3 =
      min (capsMin3Max3.minImageCount + 1) capsMin3Max3.maxImageCount ∧
    createSwapChainImageCount capsMin2Unbounded =
      capsMin2Unbounded.minImageCount + 1 :=
  ⟨(createSwapChainImageCount_spec.1 capsMin3Max3 (by decide)).1 (by decide),
   (createSwapChainImageCount_spec.1 capsMin2Unbounded (by decide)).2 (by decide)⟩

/-- C6: extent selection returns the current extent verbatim whenever it
does not carry the match-window sentinel (currentExtent.width equal to
UINT32_MAX), and otherwise returns the live framebuffer size clamped
componentwise into [minImageExtent, maxImageExtent] (stated through
max/min over a well-formed range); in particular a sentinel current
extent with framebuffer (1920,1080) and bounds (1,1)/(1024,1024) yields
(1024,1024). -/
theorem chooseSwapExtent_spec :
    (∀ (caps : VkSurfaceCapabilitiesKHR) (fbW fbH : Nat),
       caps.currentExtent.width ≠ UINT32_MAX →
       chooseSwapExtent caps fbW fbH = caps.currentExtent) ∧
    (∀ (caps : VkSurfaceCapabilitiesKHR) (fbW fbH : Nat),
       caps.currentExtent.width = UINT32_MAX →
       fbW < U32MOD → fbH < U32MOD →
       caps.minImageExtent.width ≤ caps.maxImageExtent.width →
       caps.minImageExtent.height ≤ caps.maxImageExtent.height →
       chooseSwapExtent caps fbW fbH =
         { width := max caps.minImageExtent.width
             (min fbW caps.maxImageExtent.width)
           height := max caps.minImageExtent.height
             (min fbH caps.maxImageExtent.height) }) ∧
    chooseSwapExtent capsSentinelClamp 1920 1080 =
      { width := 1024, height := 1024 } := by
  refine ⟨fun caps fbW fbH h => ?_, fun caps fbW fbH h hW hH hbw hbh => ?_, by decide⟩
  · unfold chooseSwapExtent
    rw [if_pos h]
  · unfold chooseSwapExtent
    rw [if_neg (by simpa using h)]
    simp only [Nat.mod_eq_of_lt hW, Nat.mod_eq_of_lt hH,
      stdClamp_eq_max_min _ _ _ hbw, stdClamp_eq_max_min _ _ _ hbh]

/-- Witness for C6: both branches evaluated at concrete capability sets. -/
theorem chooseSwapExtent_spec_witness :
    chooseSwapExtent capsMin2Unbounded 5 7 = capsMin2Unbounded.currentExtent ∧
    chooseSwapExtent capsSentinelClamp 1920 1080 =
      { width := max capsSentinelClamp.minImageExtent.width
          (min 1920 capsSentinelClamp.maxImageExtent.width)
        height := max capsSentinelClamp.minImageExtent.height
          (min 1080 capsSentinelClamp.maxImageExtent.height) } :=
  ⟨chooseSwapExtent_spec.1 capsMin2Unbounded 5 7 (by decide),
   chooseSwapExtent_spec.2.1 capsSentinelClamp 1920 1080 (by decide) (by decide)
     (by decide) (by decide) (by decide)⟩

/-- C7: for every resolved pair of queue-family indices, equal graphics
and present indices yield exclusive sharing, and distinct indices yield
concurrent sharing with exactly the two family indices (graphics then
present) listed. -/
theorem createSwapChainSharing_spec :
    ∀ g p : Nat,
      (g = p →
        (createSwapChainSharing
          { graphicsFamily := some g, presentFamily := some p }).imageSharingMode =
          VkSharingMode.exclusive) ∧
      (g ≠ p →
        createSwapChainSharing
          { graphicsFamily := some g, presentFamily := some p } =
          { imageSharingMode := VkSharingMode.concurrent
            queueFamilyIndexCount := 2
            pQueueFamilyIndices := [g, p] }) := by
  intro g p
  constructor
  · intro h
    subst h
    simp [createSwapChainSharing]
  · intro h
    unfold createSwapChainSharing
    rw [if_pos (by simpa using h)]
    simp

/-- Witness for C7: both branches at concrete resolved index pairs. -/
theorem createSwapChainSharing_spec_witness :
    (createSwapChainSharing
      { graphicsFamily := some 2, presentFamily := some 2 }).imageSharingMode =
      VkSharingMode.exclusive ∧
    createSwapChainSharing
      { graphicsFamily := some 1, presentFamily := some 2 } =
      { imageSharingMode := VkSharingMode.concurrent
        queueFamilyIndexCount := 2
        pQueueFamilyIndices := [1, 2] } :=
  ⟨(createSwapChainSharing_spec 2 2).1 rfl,
   (createSwapChainSharing_spec 1 2).2 (by decide)⟩

/-- C9: present-mode selection returns the mailbox mode whenever it is
in the available list, otherwise FIFO; the list holding only FIFO yields
FIFO. -/
theorem chooseSwapPresentMode_spec :
    (∀ modes : List Nat, VK_PRESENT_MODE_MAILBOX_KHR ∈ modes →
       chooseSwapPresentMode modes = VK_PRESENT_MODE_MAILBOX_KHR) ∧
    (∀ modes : List Nat, VK_PRESENT_MODE_MAILBOX_KHR ∉ modes →
       chooseSwapPresentMode modes = VK_PRESENT_MODE_FIFO_KHR) ∧
    chooseSwapPresentMode [VK_PRESENT_MODE_FIFO_KHR] =
      VK_PRESENT_MODE_FIFO_KHR := by
  refine ⟨fun modes h => ?_, fun modes h => ?_, by decide⟩
  · induction modes with
    | nil => cases h
    | cons m rest ih =>
      unfold chooseSwapPresentMode
      by_cases hm : m = VK_PRESENT_MODE_MAILBOX_KHR
      · rw [if_pos hm]
        exact hm
      · rw [if_neg hm]
        rcases List.mem_cons.mp h with h0 | h0
        · exact absurd h0.symm hm
        · exact ih h0
  · induction modes with
    | nil => rfl
    | cons m rest ih =>
      unfold chooseSwapPresentMode
      rw [if_neg (fun hm => h (List.mem_cons.mpr (Or.inl hm.symm)))]
      exact ih (fun hr => h (List.mem_cons_of_mem m hr))

/-- Witness for C9: both branches at concrete mode lists. -/
theorem chooseSwapPresentMode_spec_witness :
    chooseSwapPresentMode [VK_PRESENT_MODE_FIFO_KHR, VK_PRESENT_MODE_MAILBOX_KHR] =
      VK_PRESENT_MODE_MAILBOX_KHR ∧
    chooseSwapPresentMode [VK_PRESENT_MODE_FIFO_KHR] =
      VK_PRESENT_MODE_FIFO_KHR :=
  ⟨chooseSwapPresentMode_spec.1 _ (by decide),
   chooseSwapPresentMode_spec.2.1 _ (by decide)⟩

/-- The match predicate of chooseSwapSurfaceFormat holds exactly on the
preferred (B8G8R8A8_SRGB, SRGB_NONLINEAR) pair. -/
theorem surfaceFormatPred_iff (f : VkSurfaceFormatKHR) :
    (f.format == VK_FORMAT_B8G8R8A8_SRGB &&
     f.colorSpace == VK_COLOR_SPACE_SRGB_NONLINEAR_KHR) = true ↔
    f = preferredSurfaceFormat := by
  cases f with
  | mk fmt cs =>
    simp [preferredSurfaceFormat, Bool.and_eq_true, beq_iff_eq]

/-- C8: for every candidate list containing the preferred (8-bit BGRA,
sRGB nonlinear) pair, format selection returns exactly that pair
regardless of its position; for every non-empty list not containing it,
it returns the first list entry. -/
theorem chooseSwapSurfaceFormat_spec :
    (∀ fmts : List VkSurfaceFormatKHR, preferredSurfaceFormat ∈ fmts →
       chooseSwapSurfaceFormat fmts = some preferredSurfaceFormat) ∧
    (∀ fmts : List VkSurfaceFormatKHR, fmts ≠ [] →
       preferredSurfaceFormat ∉ fmts →
       chooseSwapSurfaceFormat fmts = fmts.head?) := by
  constructor
  · intro fmts hmem
    unfold chooseSwapSurfaceFormat
    cases hf : fmts.find? (fun f =>
        f.format == VK_FORMAT_B8G8R8A8_SRGB &&
        f.colorSpace == VK_COLOR_SPACE_SRGB_NONLINEAR_KHR) with
    | none =>
      exact absurd ((surfaceFormatPred_iff preferredSurfaceFormat).mpr rfl)
        (List.find?_eq_none.mp hf preferredSurfaceFormat hmem)
    | some f =>
      have hp := List.find?_some hf
      rw [(surfaceFormatPred_iff f).mp hp]
  · intro fmts hne hnot
    unfold chooseSwapSurfaceFormat
    have hf : fmts.find? (fun f =>
        f.format == VK_FORMAT_B8G8R8A8_SRGB &&
        f.colorSpace == VK_COLOR_SPACE_SRGB_NONLINEAR_KHR) = none := by
      refine List.find?_eq_none.mpr (fun x hx hpx => ?_)
      exact hnot ((surfaceFormatPred_iff x).mp hpx ▸ hx)
    rw [hf]

/-- Witness for C8: the preferred pair found in second position, and the
first-entry fallback on a list without it. -/
theorem chooseSwapSurfaceFormat_spec_witness :
    chooseSwapSurfaceFormat [otherSurfaceFormat, preferredSurfaceFormat] =
      some preferredSurfaceFormat ∧
    chooseSwapSurfaceFormat [otherSurfaceFormat] =
      [otherSurfaceFormat].head? :=
  ⟨chooseSwapSurfaceFormat_spec.1 _ (by decide),
   chooseSwapSurfaceFormat_spec.2 _ (by decide) (by decide)⟩

/-- C10: the fallback branch of format selection has no valid element on
an empty candidate list (the total embedding yields none there), and
under the precondition that the device passed selection — which requires
a non-empty format list — the selection always yields a value. -/
theorem chooseSwapSurfaceFormat_empty_safe :
    chooseSwapSurfaceFormat [] = none ∧
    (∀ d : PhysicalDevice, isDeviceSuitable d = true →
       (chooseSwapSurfaceFormat d.formats).isSome = true) := by
  constructor
  · rfl
  · intro d h
    simp only [isDeviceSuitable, querySwapChainSupport, Bool.and_eq_true] at h
    obtain ⟨⟨-, hext⟩, hadq⟩ := h
    rw [if_pos hext] at hadq
    simp only [Bool.and_eq_true, Bool.not_eq_true'] at hadq
    unfold chooseSwapSurfaceFormat
    cases hf : d.formats.find? (fun f =>
        f.format == VK_FORMAT_B8G8R8A8_SRGB &&
        f.colorSpace == VK_COLOR_SPACE_SRGB_NONLINEAR_KHR) with
    | some f => rfl
    | none =>
      cases hd : d.formats with
      | nil =>
        rw [hd] at hadq
        simp at hadq
      | cons a l => rfl

/-- Witness for C10: the suitability precondition discharged at the
concrete suitable device. -/
theorem chooseSwapSurfaceFormat_empty_safe_witness :
    (chooseSwapSurfaceFormat suitableDevice.formats).isSome = true :=
  chooseSwapSurfaceFormat_empty_safe.2 suitableDevice (by decide)

/-- find? returns the element at the first index whose predicate holds. -/
theorem find?_eq_of_first {α : Type} (p : α → Bool) :
    ∀ (l : List α) (i : Nat) (h : i < l.length),
      p (l.get ⟨i, h⟩) = true →
      (∀ j (hj : j < i), p (l.get ⟨j, Nat.lt_trans hj h⟩) = false) →
      l.find? p = some (l.get ⟨i, h⟩) := by
  intro l
  induction l with
  | nil =>
    intro i h
    simp at h
  | cons a l ih =>
    intro i h hp hprev
    cases i with
    | zero => exact List.find?_cons_of_pos _ hp
    | succ i' =>
      have ha : p a = false := hprev 0 (Nat.succ_pos i')
      rw [List.find?_cons_of_neg _ (by simp [ha])]
      exact ih i' (Nat.lt_of_succ_lt_succ h) hp
        (fun j hj => hprev (j + 1) (Nat.succ_lt_succ hj))

/-- C1: device selection accepts exactly the first enumerated device
whose queue-family indices are complete, whose required extensions are
all available, and whose surface-format and present-mode lists are both
non-empty; an empty enumeration raises the no-compatible-hardware error
and a non-empty enumeration with no suitable device raises the
no-suitable-device error, with no retry (the function is a single pass
returning Except). -/
theorem pickPhysicalDevice_spec :
    (pickPhysicalDevice [] = Except.error PickError.noCompatibleHardware) ∧
    (∀ (devices : List PhysicalDevice) (i : Nat) (h : i < devices.length),
       isDeviceSuitable (devices.get ⟨i, h⟩) = true →
       (∀ j (hj : j < i), isDeviceSuitable (devices.get ⟨j, Nat.lt_trans hj h⟩) = false) →
       pickPhysicalDevice devices = Except.ok (devices.get ⟨i, h⟩)) ∧
    (∀ devices : List PhysicalDevice, devices ≠ [] →
       (∀ d ∈ devices, isDeviceSuitable d = false) →
       pickPhysicalDevice devices = Except.error PickError.noSuitableDevice) ∧
    (∀ d : PhysicalDevice,
       isDeviceSuitable d = ((findQueueFamilies d.queueFamilies).isComplete &&
         (checkDeviceExtensionSupport d &&
          (!d.formats.isEmpty && !d.presentModes.isEmpty)))) := by
  refine ⟨rfl, ?_, ?_, ?_⟩
  · intro devices i h hp hprev
    cases devices with
    | nil => simp at h
    | cons a l =>
      unfold pickPhysicalDevice
      rw [if_neg (by simp)]
      rw [find?_eq_of_first (fun d => isDeviceSuitable d) (a :: l) i h hp hprev]
  · intro devices hne hall
    cases devices with
    | nil => exact absurd rfl hne
    | cons a l =>
      unfold pickPhysicalDevice
      rw [if_neg (by simp)]
      rw [List.find?_eq_none.mpr (fun x hx => by simp [hall x hx])]
  · intro d
    cases hext : checkDeviceExtensionSupport d with
    | false => simp [isDeviceSuitable, querySwapChainSupport, hext]
    | true => simp [isDeviceSuitable, querySwapChainSupport, hext]

/-- Witness for C1: the scan at a two-device enumeration whose first
device lacks the required extension, and the no-suitable-device error on
a one-device enumeration. -/
theorem pickPhysicalDevice_spec_witness :
    pickPhysicalDevice [unsuitableDevice, suitableDevice] =
      Except.ok ([unsuitableDevice, suitableDevice].get ⟨1, by decide⟩) ∧
    pickPhysicalDevice [unsuitableDevice] =
      Except.error PickError.noSuitableDevice :=
  ⟨pickPhysicalDevice_spec.2.1 [unsuitableDevice, suitableDevice] 1 (by decide)
     (by decide)
     (fun j hj => by
        have hj0 : j = 0 := by omega
        subst hj0
        show isDeviceSuitable unsuitableDevice = false
        decide),
   pickPhysicalDevice_spec.2.2.1 [unsuitableDevice] (by decide) (by decide)⟩

/-- A trace consisting only of create events contains no destroy call. -/
theorem filter_isDestroy_map_create (l : List Res) :
    (l.map BootEv.create).filter BootEv.isDestroy = [] := by
  induction l with
  | nil => rfl
  | cons a l ih => simp [BootEv.isDestroy, ih]

/-- C2 counterexample: two concrete refutations.  First, in the run
whose seventh creation call (the image views) throws, six handles were
created but the trace before process exit contains no destroy call at
all — main() catches the exception and returns EXIT_FAILURE without
invoking cleanup(), so every created handle is leaked.  Second, even on
the fully successful run with validation layers enabled, the destroy
sequence is not the exact reverse of the create sequence: the surface is
created after the debug messenger, yet cleanup() destroys the messenger
before the surface. -/
theorem bootRun_abort_counterexample :
    (bootRun true (some 6)).filter BootEv.isCreate =
      [BootEv.create .window, BootEv.create .vkInstance,
       BootEv.create .debugMessenger, BootEv.create .surface,
       BootEv.create .device, BootEv.create .swapChain] ∧
    (bootRun true (some 6)).filter BootEv.isDestroy = [] ∧
    destroyList true ≠ (createList true).reverse := by
  exact ⟨by decide, by decide, by decide⟩

/-- C2 amended: on a run in which every creation call succeeds, every
created handle is destroyed exactly once (the destroy list is a
permutation of the reversed create list); the destroy sequence is the
exact reverse of the create sequence when validation layers are
disabled, and with validation layers enabled it is the exact reverse
except that the debug messenger is destroyed immediately before the
surface instead of immediately after it (both depend only on the
instance).  On a run aborted by a failure at any stage, no destroy call
at all is issued before process exit, so every handle created before
the failure is leaked. -/
theorem bootRun_teardown_amended :
    (∀ v : Bool, (destroyList v).Perm (createList v).reverse) ∧
    (destroyList false = (createList false).reverse) ∧
    ((createList true).reverse =
      [.commandPool, .framebuffers, .graphicsPipeline, .pipelineLayout,
       .renderPass, .imageViews, .swapChain, .device] ++
      ([.surface, .debugMessenger] ++ [.vkInstance, .window]) ∧
     destroyList true =
      [.commandPool, .framebuffers, .graphicsPipeline, .pipelineLayout,
       .renderPass, .imageViews, .swapChain, .device] ++
      ([.debugMessenger, .surface] ++ [.vkInstance, .window])) ∧
    (∀ v : Bool, bootRun v none =
       (createList v).map BootEv.create ++
       ((destroyList v).map BootEv.destroy)) ∧
    (∀ (v : Bool) (k : Nat),
       (bootRun v (some k)).filter BootEv.isDestroy = []) := by
  refine ⟨?_, by decide, ⟨by decide, by decide⟩, ?_, ?_⟩
  · intro v
    cases v <;> decide
  · intro v
    cases v <;> rfl
  · intro v k
    show (((createList v).take k).map BootEv.create).filter BootEv.isDestroy = []
    exact filter_isDestroy_map_create _

/-- C3 counterexample: when vkCreatePipelineLayout fails, both shader
modules were created but neither is destroyed before the error
propagates, falsifying the claim that every execution path releases
them. -/
theorem createGraphicsPipeline_counterexample :
    PipelineEv.createVertShaderModule ∈ createGraphicsPipeline true true false true ∧
    PipelineEv.createFragShaderModule ∈ createGraphicsPipeline true true false true ∧
    PipelineEv.destroyVertShaderModule ∉ createGraphicsPipeline true true false true ∧
    PipelineEv.destroyFragShaderModule ∉ createGraphicsPipeline true true false true :=
  ⟨by decide, by decide, by decide, by decide⟩

/-- C3 amended: the pipeline assembler destroys both shader modules only
on the fully successful path, immediately after the pipeline object is
created (fragment module first, then vertex); when pipeline-layout
creation or pipeline creation fails, the already-created shader modules
are not released before the error is propagated. -/
theorem createGraphicsPipeline_amended :
    (createGraphicsPipeline true true true true =
      [.createVertShaderModule, .createFragShaderModule, .createPipelineLayout,
       .createPipeline, .destroyFragShaderModule, .destroyVertShaderModule]) ∧
    (∀ pOk : Bool,
       PipelineEv.createVertShaderModule ∈ createGraphicsPipeline true true false pOk ∧
       PipelineEv.createFragShaderModule ∈ createGraphicsPipeline true true false pOk ∧
       PipelineEv.throwFailure ∈ createGraphicsPipeline true true false pOk ∧
       PipelineEv.destroyVertShaderModule ∉ createGraphicsPipeline true true false pOk ∧
       PipelineEv.destroyFragShaderModule ∉ createGraphicsPipeline true true false pOk) ∧
    (PipelineEv.createVertShaderModule ∈ createGraphicsPipeline true true true false ∧
     PipelineEv.createFragShaderModule ∈ createGraphicsPipeline true true true false ∧
     PipelineEv.createPipelineLayout ∈ createGraphicsPipeline true true true false ∧
     PipelineEv.throwFailure ∈ createGraphicsPipeline true true true false ∧
     PipelineEv.destroyVertShaderModule ∉ createGraphicsPipeline true true true false ∧
     PipelineEv.destroyFragShaderModule ∉ createGraphicsPipeline true true true false) := by
  refine ⟨rfl, fun pOk => ?_, ?_⟩
  · cases pOk <;> exact ⟨by decide, by decide, by decide, by decide, by decide⟩
  · exact ⟨by decide, by decide, by decide, by decide, by decide, by decide⟩

/-- Any index the queue-family scan assigns to the graphics role beyond
the incoming state points at a family whose flags include the graphics
bit. -/
theorem findQueueFamiliesLoop_graphics_sound :
    ∀ (fams : List QueueFamily) (ind : QueueFamilyIndices) (i g : Nat),
      (findQueueFamiliesLoop ind i fams).graphicsFamily = some g →
      ind.graphicsFamily = some g ∨
      ∃ k, ∃ hk : k < fams.length, g = i + k ∧
        (fams.get ⟨k, hk⟩).queueFlagsGraphics = true := by
  intro fams
  induction fams with
  | nil =>
    intro ind i g h
    exact Or.inl h
  | cons qf fs ih =>
    intro ind i g h
    cases hgb : qf.queueFlagsGraphics <;> cases hpb : qf.presentSupport <;>
      simp [findQueueFamiliesLoop, hgb, hpb, QueueFamilyIndices.isComplete] at h
    case false.false =>
      split at h
      · exact Or.inl h
      · rcases ih _ (i + 1) g h with h3 | ⟨k, hk, hge, hbit⟩
        · exact Or.inl h3
        · exact Or.inr ⟨k + 1, Nat.succ_lt_succ hk, by omega, hbit⟩
    case false.true =>
      split at h
      · exact Or.inl h
      · rcases ih _ (i + 1) g h with h3 | ⟨k, hk, hge, hbit⟩
        · exact Or.inl h3
        · exact Or.inr ⟨k + 1, Nat.succ_lt_succ hk, by omega, hbit⟩
    case true.false =>
      split at h
      · have hge := Option.some.inj h
        exact Or.inr ⟨0, Nat.succ_pos _, by omega, hgb⟩
      · rcases ih _ (i + 1) g h with h3 | ⟨k, hk, hge, hbit⟩
        · have hge := Option.some.inj h3
          exact Or.inr ⟨0, Nat.succ_pos _, by omega, hgb⟩
        · exact Or.inr ⟨k + 1, Nat.succ_lt_succ hk, by omega, hbit⟩
    case true.true =>
      exact Or.inr ⟨0, Nat.succ_pos _, by omega, hgb⟩
/-- Any index the queue-family scan assigns to the presentation role
beyond the incoming state points at a family with presentation
support. -/
theorem findQueueFamiliesLoop_present_sound :
    ∀ (fams : List QueueFamily) (ind : QueueFamilyIndices) (i p : Nat),
      (findQueueFamiliesLoop ind i fams).presentFamily = some p →
      ind.presentFamily = some p ∨
      ∃ k, ∃ hk : k < fams.length, p = i + k ∧
        (fams.get ⟨k, hk⟩).presentSupport = true := by
  intro fams
  induction fams with
  | nil =>
    intro ind i p h
    exact Or.inl h
  | cons qf fs ih =>
    intro ind i p h
    cases hgb : qf.queueFlagsGraphics <;> cases hpb : qf.presentSupport <;>
      simp [findQueueFamiliesLoop, hgb, hpb, QueueFamilyIndices.isComplete] at h
    case false.false =>
      split at h
      · exact Or.inl h
      · rcases ih _ (i + 1) p h with h3 | ⟨k, hk, hpe, hsup⟩
        · exact Or.inl h3
        · exact Or.inr ⟨k + 1, Nat.succ_lt_succ hk, by omega, hsup⟩
    case false.true =>
      split at h
      · have hpe := Option.some.inj h
        exact Or.inr ⟨0, Nat.succ_pos _, by omega, hpb⟩
      · rcases ih _ (i + 1) p h with h3 | ⟨k, hk, hpe, hsup⟩
        · have hpe := Option.some.inj h3
          exact Or.inr ⟨0, Nat.succ_pos _, by omega, hpb⟩
        · exact Or.inr ⟨k + 1, Nat.succ_lt_succ hk, by omega, hsup⟩
    case true.false =>
      split at h
      · exact Or.inl h
      · rcases ih _ (i + 1) p h with h3 | ⟨k, hk, hpe, hsup⟩
        · exact Or.inl h3
        · exact Or.inr ⟨k + 1, Nat.succ_lt_succ hk, by omega, hsup⟩
    case true.true =>
      exact Or.inr ⟨0, Nat.succ_pos _, by omega, hpb⟩

/-- Once the scan start state is incomplete and the scan of a family
list produces a complete result, the loop has broken before the end of
that list, so appending further families cannot change the result. -/
theorem findQueueFamiliesLoop_append :
    ∀ (fams : List QueueFamily) (ind : QueueFamilyIndices) (i : Nat)
      (rest : List QueueFamily),
      ind.isComplete = false →
      (findQueueFamiliesLoop ind i fams).isComplete = true →
      findQueueFamiliesLoop ind i (fams ++ rest) =
        findQueueFamiliesLoop ind i fams := by
  intro fams
  induction fams with
  | nil =>
    intro ind i rest h0 h1
    rw [show findQueueFamiliesLoop ind i [] = ind from rfl] at h1
    rw [h0] at h1
    exact absurd h1 (by decide)
  | cons qf fs ih =>
    intro ind i rest h0 h1
    rw [List.cons_append]
    cases hgb : qf.queueFlagsGraphics <;> cases hpb : qf.presentSupport <;>
      simp [findQueueFamiliesLoop, hgb, hpb] at h1 ⊢ <;>
      split_ifs at h1 ⊢ with hc <;>
      first
        | rfl
        | exact ih _ (i + 1) rest (Bool.eq_false_iff.mpr hc) h1

/-- C4 counterexample: on the list whose families 0 and 1 are
graphics-only and family 2 is present-only, the resolver reports
graphics index 1 even though the first family index whose flags include
the graphics bit is 0 — the scan keeps overwriting the graphics role
until both roles are assigned, so the first-index description is false. -/
theorem findQueueFamilies_counterexample :
    findQueueFamilies famsGraphicsTwice =
      { graphicsFamily := some 1, presentFamily := some 2 } ∧
    (findQueueFamilies famsGraphicsTwice).graphicsFamily ≠ some 0 ∧
    (famsGraphicsTwice.get ⟨0, by decide⟩).queueFlagsGraphics = true :=
  ⟨by decide, by decide, by decide⟩

/-- C4 amended: for every queue-family list, the resolver assigns to the
graphics role an index whose family has the graphics bit and to the
presentation role an index whose family has presentation support — not
necessarily the first such index, since each role is overwritten by
every satisfying family scanned before both roles are first assigned
(the same index may fill both roles) — and it stops scanning as soon as
both roles are assigned (a complete result is unchanged by any appended
families), so the result may contain two distinct indices even when a
single family satisfying both predicates exists later in enumeration
order (witnessed by the third conjunct's concrete list). -/
theorem findQueueFamilies_amended :
    (∀ (fams : List QueueFamily) (g : Nat),
       (findQueueFamilies fams).graphicsFamily = some g →
       ∃ h : g < fams.length, (fams.get ⟨g, h⟩).queueFlagsGraphics = true) ∧
    (∀ (fams : List QueueFamily) (p : Nat),
       (findQueueFamilies fams).presentFamily = some p →
       ∃ h : p < fams.length, (fams.get ⟨p, h⟩).presentSupport = true) ∧
    (∀ (fams rest : List QueueFamily),
       (findQueueFamilies fams).isComplete = true →
       findQueueFamilies (fams ++ rest) = findQueueFamilies fams) ∧
    (findQueueFamilies famsSplitThenCombined =
      { graphicsFamily := some 0, presentFamily := some 1 } ∧
     (famsSplitThenCombined.get ⟨2, by decide⟩).queueFlagsGraphics = true ∧
     (famsSplitThenCombined.get ⟨2, by decide⟩).presentSupport = true) := by
  refine ⟨?_, ?_, ?_, by decide, by decide, by decide⟩
  · intro fams g h
    rcases findQueueFamiliesLoop_graphics_sound fams
        { graphicsFamily := none, presentFamily := none } 0 g h with
      h0 | ⟨k, hk, hgk, hbit⟩
    · exact Option.noConfusion h0
    · have hk2 : g = k := by omega
      subst hk2
      exact ⟨hk, hbit⟩
  · intro fams p h
    rcases findQueueFamiliesLoop_present_sound fams
        { graphicsFamily := none, presentFamily := none } 0 p h with
      h0 | ⟨k, hk, hpk, hsup⟩
    · exact Option.noConfusion h0
    · have hk2 : p = k := by omega
      subst hk2
      exact ⟨hk, hsup⟩
  · intro fams rest h
    exact findQueueFamiliesLoop_append fams
      { graphicsFamily := none, presentFamily := none } 0 rest rfl h

/-- Witness for C4: the soundness conjuncts evaluated on the concrete
overwriting list, and the early-exit conjunct on the split list extended
by one more combined family. -/
theorem findQueueFamilies_amended_witness :
    (∃ h : 1 < famsGraphicsTwice.length,
       (famsGraphicsTwice.get ⟨1, h⟩).queueFlagsGraphics = true) ∧
    (∃ h : 2 < famsGraphicsTwice.length,
       (famsGraphicsTwice.get ⟨2, h⟩).presentSupport = true) ∧
    findQueueFamilies (famsSplitThenCombined ++
        [{ queueFlagsGraphics := true, presentSupport := true }]) =
      findQueueFamilies famsSplitThenCombined :=
  ⟨findQueueFamilies_amended.1 famsGraphicsTwice 1 (by decide),
   findQueueFamilies_amended.2.1 famsGraphicsTwice 2 (by decide),
   findQueueFamilies_amended.2.2.1 famsSplitThenCombined _ (by decide)⟩
